import Mathlib

/-!
Shallow embedding of the Warehouse-Management-System frontend
(src/frontend/src/pages/UploadPage.jsx, AnalyticsPage.jsx, axios.js, and the
DashboardPage component reproduced in src/README.md).

The frontend exchanges JSON with a remote backend over a shared axios
instance.  Each page handler is embedded as a pure function from the
outcomes of the HTTP requests it issues (an oracle) to the list of requests
it issued, in order, together with the React state it leaves behind.
-/

namespace WMS

/-- Transient JSON values exchanged with the backend.  Numbers are modelled
as integers: every numeric field the verified properties touch
(total_records, total_orders, unmapped_count, HTTP status) is integral, and
no arithmetic that could distinguish floats occurs in the frontend.
JavaScript `undefined` (absent field) is conflated with `null`; both are
falsy and the frontend never distinguishes them. -/
inductive Json where
  | null
  | bool (b : Bool)
  | num (n : Int)
  | str (s : String)
  | arr (xs : List Json)
  | obj (fields : List (String × Json))
deriving Repr

/-- JavaScript truthiness of a JSON value (`if (x)`, `x || y`). -/
def jsTruthy : Json → Bool
  | .null => false
  | .bool b => b
  | .num n => n != 0
  | .str s => s != ""
  | .arr _ => true
  | .obj _ => true

/-- Property access `x.k` on a JSON value: first binding of the key in an
object, `null` (for absent / `undefined`) otherwise. -/
def Json.getField : Json → String → Json
  | .obj fs, k =>
      match fs.find? (fun p => p.1 = k) with
      | some p => p.2
      | none => .null
  | _, _ => .null

/-- JavaScript `String(x)` coercion, as applied by the `Error` constructor;
arrays join their elements with commas, objects print "[object Object]". -/
def jsToStr : Json → String
  | .null => "null"
  | .bool b => if b then "true" else "false"
  | .num n => toString n
  | .str s => s
  | .arr xs => String.intercalate "," (xs.attach.map (fun x => jsToStr x.1))
  | .obj _ => "[object Object]"
decreasing_by
  have h := List.sizeOf_lt_of_mem x.2
  simp only [Json.arr.sizeOf_spec] at *
  omega

/-- An HTTP request issued through the shared axios instance: method and the
URL given to axios (which may carry a query string). -/
structure Request where
  method : String
  url : String
deriving Repr, DecidableEq

/-- Path component of a request URL: everything before the first `?`. -/
def requestPath (r : Request) : String :=
  ⟨r.url.data.takeWhile (fun c => c ≠ '?')⟩

/-- Outcome of one axios request, as the frontend's catch handlers
distinguish them: success with a parsed JSON body, an HTTP error response
(`error.response` set, with status and body), or a network failure
(`error.request` set, no response). -/
inductive ReqResult where
  | ok (body : Json)
  | respErr (status : Nat) (body : Json)
  | reqErr
deriving Repr

/-- Truth of "this request failed" for an axios outcome. -/
def ReqResult.isFail : ReqResult → Bool
  | .ok _ => false
  | _ => true

/-- A JavaScript exception as the UploadPage catch handler inspects it:
an axios error carrying a response, an axios error carrying only a request,
or a plain `Error` with a message string. -/
inductive JsErr where
  | axiosResp (status : Nat) (body : Json)
  | axiosReq
  | plain (msg : String)
deriving Repr

/-! UploadPage.jsx -/

/-- React state of UploadPage that processMapping touches. -/
structure UploadState where
  error : Option String
  results : Option Json
  processing : Bool
deriving Repr

/-- Message of the `Error` thrown by `uploadFile`'s catch handler:
`error.response?.data?.error || 'Upload failed'`. -/
def uploadErrMsg (body : Json) : String :=
  let e := Json.getField body "error"
  if jsTruthy e then jsToStr e else "Upload failed"

/-- Embedding of `uploadFile(file, endpoint)` from UploadPage.jsx: POSTs the
file to `/api/upload/${endpoint}`; on success returns `response.data`
unchanged, on failure throws an `Error` whose message is the backend-supplied
`error` field when truthy and `'Upload failed'` otherwise (also when no
response arrived at all). -/
def uploadFile (_file : String) (endpoint : String) (r : ReqResult) :
    Request × Except String Json :=
  (⟨"POST", "/api/upload/" ++ endpoint⟩,
   match r with
   | .ok body => .ok body
   | .respErr _ body => .error (uploadErrMsg body)
   | .reqErr => .error "Upload failed")

/-- The catch handler at the end of `processMapping`: which string it passes
to `setError` for each kind of caught exception. -/
def catchMessage : JsErr → String
  | .axiosResp status body =>
      let e := Json.getField body "error"
      if jsTruthy e then jsToStr e else "Server error: " ++ toString status
  | .axiosReq =>
      "Network error: Unable to connect to server. Please check if the backend is running."
  | .plain m => if m = "" then "An unexpected error occurred" else m

/-- Embedding of `processMapping` from UploadPage.jsx.  `oracle i` is the
outcome of the i-th request it issues.  Returns the requests issued, in
order, and the final React state: an early return with an error banner when
either file is missing; otherwise upload mapping, upload sales, POST
`/api/process` in sequence, each awaited before the next, stopping at the
first thrown error, which the single catch handler converts to an error
string; on success `setResults(response.data.stats)` if the `stats` field is
truthy, else the thrown `'Invalid response format from server'` reaches the
same catch handler; `setProcessing(false)` runs in `finally`. -/
def processMapping (init : UploadState) (mappingFile salesFile : Option String)
    (oracle : Nat → ReqResult) : List Request × UploadState :=
  match mappingFile, salesFile with
  | some mf, some sf =>
    let (req1, r1) := uploadFile mf "mapping" (oracle 0)
    match r1 with
    | .error m =>
        ([req1], { init with processing := false,
                             error := some (catchMessage (.plain m)) })
    | .ok _ =>
      let (req2, r2) := uploadFile sf "sales" (oracle 1)
      match r2 with
      | .error m =>
          ([req1, req2], { init with processing := false,
                                     error := some (catchMessage (.plain m)) })
      | .ok _ =>
        let req3 : Request := ⟨"POST", "/api/process"⟩
        match oracle 2 with
        | .respErr s b =>
            ([req1, req2, req3],
             { init with processing := false,
                         error := some (catchMessage (.axiosResp s b)) })
        | .reqErr =>
            ([req1, req2, req3],
             { init with processing := false,
                         error := some (catchMessage .axiosReq) })
        | .ok body =>
          let stats := Json.getField body "stats"
          if jsTruthy stats then
            ([req1, req2, req3],
             { error := none, results := some stats, processing := false })
          else
            ([req1, req2, req3],
             { init with processing := false,
                         error := some (catchMessage
                           (.plain "Invalid response format from server")) })
  | _, _ => ([], { init with error := some "Please upload both mapping and sales files" })

/-- Counters the results panel of UploadPage reads from the stored stats
object: total_records, mapped_records and mapping_rate. -/
def displayedCounters (stats : Json) : Json × Json × Json :=
  (Json.getField stats "total_records",
   Json.getField stats "mapped_records",
   Json.getField stats "mapping_rate")

/-- Embedding of `exportResults(format)` from UploadPage.jsx: one POST to
`/api/export`; on success a blob download named `processed_sales.<format>`
is triggered, on any failure `setError('Export failed')`.  Returns the
requests issued, the error string set (if any) and the download (if any). -/
def exportResults (format : String) (r : ReqResult) :
    List Request × Option String × Option String :=
  ([⟨"POST", "/api/export"⟩],
   match r with
   | .ok _ => (none, some ("processed_sales." ++ format))
   | _ => (some "Export failed", none))

/-! AnalyticsPage.jsx -/

/-- Chart payload attached to a simulated AI answer. -/
structure ChartData where
  chart_type : String
  title : String
deriving Repr, DecidableEq

/-- Return value of `simulateAIResponse`: a response text and optional
chart data. -/
structure AIResponse where
  response : String
  chartData : Option ChartData
deriving Repr, DecidableEq

/-- Artificial processing delay of `simulateAIResponse`, in milliseconds
(`setTimeout(resolve, 1000)`). -/
def simulateDelayMs : Nat := 1000

/-- Truth of "pat is an initial segment of s" on character lists. -/
def leadsWith : List Char → List Char → Bool
  | [], _ => true
  | _ :: _, [] => false
  | p :: ps, c :: cs => p = c && leadsWith ps cs

/-- Truth of "pat occurs contiguously inside s" on character lists. -/
def occursIn (pat s : List Char) : Bool :=
  match s with
  | [] => leadsWith pat []
  | _ :: cs => leadsWith pat s || occursIn pat cs

/-- Substring test standing for JavaScript `String.prototype.includes`. -/
def strContains (s pat : String) : Bool :=
  occursIn pat.data s.data

/-- Hard-coded answer for queries about top / best / selling products. -/
def topProductsResponse : AIResponse :=
  { response := "Based on your sales data, here are the top selling products:\n\n1. MSKU001 - 150 orders\n2. MSKU002 - 120 orders\n3. MSKU003 - 95 orders\n\nThese products represent 60% of your total sales volume.",
    chartData := some ⟨"bar", "Top Selling Products"⟩ }

/-- Hard-coded answer for queries about mapping / rate. -/
def mappingRateResponse : AIResponse :=
  { response := "Your current mapping rate is 85.2%. This means 85.2% of your SKUs have been successfully mapped to MSKUs. The remaining 14.8% (approximately 45 SKUs) need attention. Consider updating your mapping file to improve this rate.",
    chartData := some ⟨"pie", "Mapping Status"⟩ }

/-- Hard-coded answer for queries about chart / graph / visualize. -/
def visualizationResponse : AIResponse :=
  { response := "I've created a visualization for you. The chart shows the distribution of your sales data. You can see clear patterns in product performance and identify opportunities for optimization.",
    chartData := some ⟨"bar", "Sales Distribution"⟩ }

/-- Hard-coded fallback help answer, with no chart data. -/
def helpResponse : AIResponse :=
  { response := "I can help you analyze your warehouse data! Try asking me about:\n\n• Top selling products\n• Mapping rates and unmapped SKUs\n• Sales trends and patterns\n• Data quality issues\n• Performance metrics\n\nJust type your question in natural language!",
    chartData := none }

/-- Embedding of `simulateAIResponse(userQuery)` from AnalyticsPage.jsx:
pure keyword matching on the lowercased query, no network involved. -/
def simulateAIResponse (userQuery : String) : AIResponse :=
  let queryLower := userQuery.toLower
  if strContains queryLower "top" || strContains queryLower "best" ||
      strContains queryLower "selling" then
    topProductsResponse
  else if strContains queryLower "mapping" || strContains queryLower "rate" then
    mappingRateResponse
  else if strContains queryLower "chart" || strContains queryLower "graph" ||
      strContains queryLower "visualize" then
    visualizationResponse
  else
    helpResponse

/-- Whitespace trimming standing for JavaScript `String.prototype.trim`:
drop whitespace characters from both ends. -/
def jsTrim (s : String) : String :=
  ⟨((s.data.dropWhile Char.isWhitespace).reverse.dropWhile
      Char.isWhitespace).reverse⟩

/-- One entry of the AnalyticsPage conversation (timestamps omitted: the
verified properties never inspect them). -/
structure ChatMessage where
  kind : String
  content : String
  chartData : Option ChartData
deriving Repr, DecidableEq

/-- React state of AnalyticsPage that sendQuery touches. -/
structure AnalyticsState where
  query : String
  conversation : List ChatMessage
  loading : Bool
deriving Repr, DecidableEq

/-- Embedding of `sendQuery` from AnalyticsPage.jsx.  It issues no network
request (the first component of the result is the empty request list): the
awaited call is the local `simulateAIResponse`.  A blank query returns
without touching state.  Otherwise the user message is appended, then the
awaited answer is appended as an ai message; the catch branch (taken only if
the awaited call throws, flagged here by `fails`) appends an error message
instead; `finally` clears loading and resets the query either way. -/
def sendQuery (st : AnalyticsState) (fails : Bool) :
    List Request × AnalyticsState :=
  if jsTrim st.query = "" then ([], st)
  else
    let userMsg : ChatMessage := ⟨"user", st.query, none⟩
    if fails then
      ([], { query := "",
             conversation := st.conversation ++
               [userMsg,
                ⟨"error", "Sorry, I encountered an error processing your query.", none⟩],
             loading := false })
    else
      let r := simulateAIResponse st.query
      ([], { query := "",
             conversation := st.conversation ++
               [userMsg, ⟨"ai", r.response, r.chartData⟩],
             loading := false })

/-- React state of AnalyticsPage that loadInitialInsights touches. -/
structure AnalyticsInit where
  dataPreview : Option Json
  insights : List String
deriving Repr

/-- Hard-coded initial insight strings set when processed data exists. -/
def initialInsights : List String :=
  ["📊 You can ask me questions about your sales data",
   "🔍 Try asking: 'Show me top selling products'",
   "📈 Ask for charts: 'Create a bar chart of sales by product'",
   "💡 Get insights: 'What's the mapping rate?'"]

/-- Embedding of `loadInitialInsights` from AnalyticsPage.jsx: one GET of
`/api/data/preview?type=processed`; on a truthy body the preview and the
canned insights are stored; the catch handler only writes to the console
(`'No processed data available'`), so the third component — the user-facing
error string this handler surfaces — is always `none`. -/
def loadInitialInsights (init : AnalyticsInit) (r : ReqResult) :
    List Request × AnalyticsInit × Option String :=
  ([⟨"GET", "/api/data/preview?type=processed"⟩],
   match r with
   | .ok body =>
       if jsTruthy body then
         ({ dataPreview := some body, insights := initialInsights }, none)
       else (init, none)
   | _ => (init, none))

/-! DashboardPage (source reproduced in src/README.md) -/

/-- React state of DashboardPage. -/
structure DashState where
  analytics : Option Json
  loading : Bool
  error : Option String
deriving Repr

/-- Embedding of `fetchAnalytics` from DashboardPage: one GET of
`/api/analytics`; on success the body is stored as-is, on any failure
`setError('Failed to load analytics data')`; `finally` clears loading. -/
def fetchAnalytics (init : DashState) (r : ReqResult) :
    List Request × DashState :=
  ([⟨"GET", "/api/analytics"⟩],
   match r with
   | .ok body => { init with loading := false, analytics := some body }
   | _ => { init with loading := false,
                      error := some "Failed to load analytics data" })

/-- Dashboard page load (`useEffect` with empty dependency list): a single
call of fetchAnalytics from the initial state. -/
def dashboardOnLoad (r : ReqResult) : List Request × DashState :=
  fetchAnalytics { analytics := none, loading := true, error := none } r

/-- Entries of a JSON object in order (`Object.entries`); the DashboardPage
only applies it to the object-valued `top_products` field. -/
def jsEntries : Json → List (String × Json)
  | .obj fs => fs
  | _ => []

/-- Numeric value of a JSON number (JavaScript arithmetic is only applied to
numeric fields on the dashboard). -/
def jsInt : Json → Int
  | .num n => n
  | _ => 0

/-- Bar-chart input of the dashboard: `Object.entries(metrics.top_products)`
mapped to (product, count) pairs. -/
def topProductsData (metrics : Json) : List (String × Json) :=
  jsEntries (Json.getField metrics "top_products")

/-- Pie-chart input of the dashboard: a Mapped slice valued
`total_orders - unmapped_count` and an Unmapped slice valued
`unmapped_count`. -/
def mappingPieData (metrics : Json) : List (String × Int) :=
  [("Mapped", jsInt (Json.getField metrics "total_orders") -
              jsInt (Json.getField metrics "unmapped_count")),
   ("Unmapped", jsInt (Json.getField metrics "unmapped_count"))]

/-- The six backend endpoints of the REST contract. -/
def apiEndpoints : List String :=
  ["/api/analytics", "/api/data/preview", "/api/upload/mapping",
   "/api/upload/sales", "/api/process", "/api/export"]

/-- The request that uploads the mapping file. -/
def reqMappingUpload : Request := ⟨"POST", "/api/upload/mapping"⟩

/-- The request that uploads the sales file. -/
def reqSalesUpload : Request := ⟨"POST", "/api/upload/sales"⟩

/-- The request that triggers processing. -/
def reqProcess : Request := ⟨"POST", "/api/process"⟩

/-- The export request. -/
def reqExport : Request := ⟨"POST", "/api/export"⟩

/-- The dashboard analytics request. -/
def reqAnalytics : Request := ⟨"GET", "/api/analytics"⟩

/-- The processed-data preview request of AnalyticsPage. -/
def reqDataPreview : Request := ⟨"GET", "/api/data/preview?type=processed"⟩

/-- Sample stats object, shaped like the commented sample response at the
bottom of UploadPage.jsx. -/
def sampleStats : Json :=
  .obj [("mapped_records", .num 48), ("mapping_rate", .num 100),
        ("total_records", .num 48), ("unmapped_count", .num 0),
        ("unmapped_skus", .arr [])]

/-- Sample successful `/api/process` response body. -/
def sampleProcessBody : Json :=
  .obj [("message", .str "Mapping processed successfully"),
        ("stats", sampleStats)]

/-- Sample `/api/analytics` response body for dashboard tests. -/
def sampleAnalyticsBody : Json :=
  .obj [("analytics",
         .obj [("total_orders", .num 48), ("unique_products", .num 10),
               ("mapping_rate", .num 94),
               ("top_products", .obj [("MSKU001", .num 150),
                                      ("MSKU002", .num 120)]),
               ("unmapped_count", .num 3)])]

/-- With both files selected, the requests processMapping issues form one of
three sequential traces: it stops after the first failed request and never
issues any request twice. -/
theorem processMapping_trace_mem (init : UploadState) (mf sf : String)
    (oracle : Nat → ReqResult) :
    (processMapping init (some mf) (some sf) oracle).1 ∈
      [[reqMappingUpload], [reqMappingUpload, reqSalesUpload],
       [reqMappingUpload, reqSalesUpload, reqProcess]] := by
  cases h0 : oracle 0 <;> cases h1 : oracle 1 <;> cases h2 : oracle 2 <;>
    simp [processMapping, uploadFile, h0, h1, h2, reqMappingUpload,
          reqSalesUpload, reqProcess] <;>
    split <;> simp

/-- C1: with both files selected and every request succeeding (the process
response carrying a truthy stats field), processMapping issues exactly the
three POSTs, in order — mapping upload, sales upload, process — and stores
the response's stats field as the results, whose displayed counters are its
total_records, mapped_records and mapping_rate fields; whatever the request
outcomes, the trace is a prefix of that sequence, so no request is ever
retried. -/
theorem C1_upload_flow_success (init : UploadState) (mf sf : String)
    (oracle : Nat → ReqResult) (b0 b1 b2 : Json)
    (h0 : oracle 0 = .ok b0) (h1 : oracle 1 = .ok b1) (h2 : oracle 2 = .ok b2)
    (hstats : jsTruthy (Json.getField b2 "stats") = true) :
    processMapping init (some mf) (some sf) oracle =
      ([reqMappingUpload, reqSalesUpload, reqProcess],
       { error := none, results := some (Json.getField b2 "stats"),
         processing := false }) ∧
    (∀ o : Nat → ReqResult,
       (processMapping init (some mf) (some sf) o).1 ∈
         [[reqMappingUpload], [reqMappingUpload, reqSalesUpload],
          [reqMappingUpload, reqSalesUpload, reqProcess]]) ∧
    displayedCounters (Json.getField b2 "stats") =
      (Json.getField (Json.getField b2 "stats") "total_records",
       Json.getField (Json.getField b2 "stats") "mapped_records",
       Json.getField (Json.getField b2 "stats") "mapping_rate") := by
  refine ⟨?_, fun o => processMapping_trace_mem init mf sf o, rfl⟩
  simp [processMapping, uploadFile, h0, h1, h2, hstats, reqMappingUpload,
        reqSalesUpload, reqProcess]

/-- C1 witness: a concrete all-success run. -/
theorem C1_upload_flow_success_witness :
    ((fun _ => .ok sampleProcessBody : Nat → ReqResult) 2 =
        .ok sampleProcessBody) ∧
    jsTruthy (Json.getField sampleProcessBody "stats") = true ∧
    processMapping ⟨none, none, false⟩ (some "mapping.csv") (some "sales.csv")
        (fun _ => .ok sampleProcessBody) =
      ([reqMappingUpload, reqSalesUpload, reqProcess],
       { error := none,
         results := some (Json.getField sampleProcessBody "stats"),
         processing := false }) :=
  ⟨rfl, by decide,
   (C1_upload_flow_success ⟨none, none, false⟩ "mapping.csv" "sales.csv"
      (fun _ => .ok sampleProcessBody) sampleProcessBody sampleProcessBody
      sampleProcessBody rfl rfl rfl (by decide)).1⟩

/-- C8: when either file is missing, processMapping sets the error banner to
the fixed string, issues no request, and leaves results and processing (and
everything else) unchanged. -/
theorem C8_missing_files_early_return (init : UploadState)
    (m s : Option String) (oracle : Nat → ReqResult)
    (h : m = none ∨ s = none) :
    processMapping init m s oracle =
      ([], { init with
             error := some "Please upload both mapping and sales files" }) := by
  rcases h with rfl | rfl
  · cases s <;> rfl
  · cases m <;> rfl

/-- C8 witness: missing mapping file with a nontrivial prior state. -/
theorem C8_missing_files_early_return_witness :
    ((none : Option String) = none ∨ (some "sales.csv" : Option String) = none) ∧
    processMapping ⟨some "old error", some Json.null, true⟩ none
        (some "sales.csv") (fun _ => .ok Json.null) =
      ([], { error := some "Please upload both mapping and sales files",
             results := some Json.null, processing := true }) :=
  ⟨Or.inl rfl,
   C8_missing_files_early_return ⟨some "old error", some Json.null, true⟩ none
     (some "sales.csv") (fun _ => .ok Json.null) (Or.inl rfl)⟩

/-- C2: the simulated AI answer is a pure function of the query text,
computed by case-insensitive keyword matching after the fixed 1000 ms delay:
top/best/selling queries get the hard-coded top-products answer with a bar
chart, otherwise mapping/rate queries the hard-coded mapping-rate answer
with a pie chart, otherwise chart/graph/visualize queries the hard-coded
visualization answer with a bar chart, and everything else the hard-coded
help answer with no chart; sendQuery issues no network request. -/
theorem C2_simulated_ai_keyword_matching (q : String) :
    simulateDelayMs = 1000 ∧
    (∀ st fails, (sendQuery st fails).1 = []) ∧
    (if strContains q.toLower "top" || strContains q.toLower "best" ||
        strContains q.toLower "selling" then
       simulateAIResponse q = topProductsResponse ∧
       topProductsResponse.chartData = some ⟨"bar", "Top Selling Products"⟩
     else if strContains q.toLower "mapping" || strContains q.toLower "rate" then
       simulateAIResponse q = mappingRateResponse ∧
       mappingRateResponse.chartData = some ⟨"pie", "Mapping Status"⟩
     else if strContains q.toLower "chart" || strContains q.toLower "graph" ||
        strContains q.toLower "visualize" then
       simulateAIResponse q = visualizationResponse ∧
       visualizationResponse.chartData = some ⟨"bar", "Sales Distribution"⟩
     else
       simulateAIResponse q = helpResponse ∧ helpResponse.chartData = none) := by
  refine ⟨rfl, ?_, ?_⟩
  · intro st fails
    simp only [sendQuery]
    split
    · rfl
    · split <;> rfl
  · split
    · rename_i h1
      exact ⟨by simp [simulateAIResponse, h1], rfl⟩
    · rename_i h1
      split
      · rename_i h2
        exact ⟨by simp [simulateAIResponse, h1, h2], rfl⟩
      · rename_i h2
        split
        · rename_i h3
          exact ⟨by simp [simulateAIResponse, h1, h2, h3], rfl⟩
        · rename_i h3
          exact ⟨by simp [simulateAIResponse, h1, h2, h3], rfl⟩

/-- C9: a query whose trimmed text is nonempty makes sendQuery append
exactly two messages, the user message carrying the query followed by one
ai message on success or one error message on failure, reset the query to
the empty string and end with loading false, issuing no request; a
blank-or-whitespace query leaves the whole state untouched. -/
theorem C9_sendQuery_two_messages (st : AnalyticsState) (fails : Bool) :
    (jsTrim st.query = "" → sendQuery st fails = ([], st)) ∧
    (jsTrim st.query ≠ "" →
       (sendQuery st fails).1 = [] ∧
       (sendQuery st fails).2.query = "" ∧
       (sendQuery st fails).2.loading = false ∧
       (sendQuery st fails).2.conversation =
         st.conversation ++
           [⟨"user", st.query, none⟩,
            if fails then
              ⟨"error", "Sorry, I encountered an error processing your query.",
               none⟩
            else
              ⟨"ai", (simulateAIResponse st.query).response,
               (simulateAIResponse st.query).chartData⟩]) := by
  constructor
  · intro h
    simp [sendQuery, h]
  · intro h
    cases fails <;> simp [sendQuery, h]

/-- C9 witness: a concrete successful query. -/
theorem C9_sendQuery_two_messages_witness :
    jsTrim "top products" ≠ "" ∧
    (sendQuery ⟨"top products", [], false⟩ false).2.conversation =
      ([] : List ChatMessage) ++
        [⟨"user", "top products", none⟩,
         if false then
           ⟨"error", "Sorry, I encountered an error processing your query.",
            none⟩
         else
           ⟨"ai", (simulateAIResponse "top products").response,
            (simulateAIResponse "top products").chartData⟩] :=
  ⟨by decide,
   ((C9_sendQuery_two_messages ⟨"top products", [], false⟩ false).2
      (by decide)).2.2.2⟩

/-- C10 counterexample: a failed upload whose response body carries an
error field that is present but empty throws 'Upload failed', not the
backend-supplied field. -/
theorem C10_counterexample_empty_error_field :
    (uploadFile "sales.csv" "sales"
        (.respErr 400 (Json.obj [("error", Json.str "")]))).2 =
      .error "Upload failed" ∧ ("" : String) ≠ "Upload failed" :=
  ⟨rfl, by decide⟩

/-- C10 (amended): on success uploadFile returns the response body
unchanged; on failure it throws an Error whose message is the
backend-supplied error field when that field is truthy (in particular a
non-empty string), and the fixed string 'Upload failed' otherwise —
including when the error field is falsy (absent, empty, null) and when no
response arrived at all. -/
theorem C10_uploadFile_result (file endpoint : String) (b body : Json)
    (s : Nat) (m : String)
    (hm : Json.getField body "error" = .str m) (hne : m ≠ "") :
    (uploadFile file endpoint (.ok b)).2 = .ok b ∧
    (uploadFile file endpoint (.respErr s body)).2 = .error m ∧
    (∀ body2, jsTruthy (Json.getField body2 "error") = false →
       (uploadFile file endpoint (.respErr s body2)).2 =
         .error "Upload failed") ∧
    (uploadFile file endpoint .reqErr).2 = .error "Upload failed" := by
  refine ⟨rfl, ?_, ?_, rfl⟩
  · simp [uploadFile, uploadErrMsg, hm, jsTruthy, jsToStr, hne]
  · intro body2 h
    simp [uploadFile, uploadErrMsg, h]

/-- C10 witness: a concrete failed upload with a non-empty error field, and
a concrete success. -/
theorem C10_uploadFile_result_witness :
    Json.getField (Json.obj [("error", Json.str "No file provided")]) "error" =
      Json.str "No file provided" ∧
    ("No file provided" : String) ≠ "" ∧
    (uploadFile "sales.csv" "sales"
        (.respErr 400 (Json.obj [("error", Json.str "No file provided")]))).2 =
      .error "No file provided" :=
  ⟨rfl, by decide,
   (C10_uploadFile_result "sales.csv" "sales" Json.null
      (Json.obj [("error", Json.str "No file provided")]) 400
      "No file provided" rfl (by decide)).2.1⟩

/-- C3 counterexample: when the data-preview request of AnalyticsPage fails,
its catch handler surfaces no user-facing error string at all (the third
component, the surfaced error, is `none`) and leaves the page state
untouched — the failure is only logged to the console, contradicting the
claim that every request failure is surfaced as an error or message
state. -/
theorem C3_counterexample_data_preview_silent :
    loadInitialInsights ⟨none, []⟩ .reqErr =
      ([reqDataPreview], ⟨none, []⟩, none) := rfl

/-- C3 (amended): every request failure is caught inside its own handler
and none is retried; the upload/process, export and dashboard-analytics
handlers surface a single user-facing error string, and a failing query
appends a single error message — but the data-preview fetch of
AnalyticsPage swallows its failure silently (console log only), surfacing
no string and changing no state. -/
theorem C3_error_surfacing (init : UploadState) (dinit : DashState)
    (ainit : AnalyticsInit) (st : AnalyticsState) (mf sf fmt : String)
    (oracle : Nat → ReqResult) (r : ReqResult) :
    (((oracle 0).isFail || (oracle 1).isFail || (oracle 2).isFail) = true →
       ∃ m, (processMapping init (some mf) (some sf) oracle).2.error =
         some m) ∧
    (r.isFail = true →
       (exportResults fmt r).2.1 = some "Export failed") ∧
    (r.isFail = true →
       (fetchAnalytics dinit r).2.error =
         some "Failed to load analytics data") ∧
    (jsTrim st.query ≠ "" →
       (sendQuery st true).2.conversation =
         st.conversation ++
           [⟨"user", st.query, none⟩,
            ⟨"error", "Sorry, I encountered an error processing your query.",
             none⟩]) ∧
    ((loadInitialInsights ainit r).2.2 = none ∧
     (r.isFail = true → (loadInitialInsights ainit r).2.1 = ainit)) := by
  refine ⟨?_, ?_, ?_, ?_, ?_, ?_⟩
  · intro h
    cases h0 : oracle 0 <;> cases h1 : oracle 1 <;> cases h2 : oracle 2 <;>
      simp [h0, h1, h2, ReqResult.isFail] at h <;>
      simp [processMapping, uploadFile, h0, h1, h2] <;> split <;> simp
  · intro h
    cases r <;> simp [ReqResult.isFail] at h <;> rfl
  · intro h
    cases r <;> simp [ReqResult.isFail] at h <;> rfl
  · intro h
    simp [sendQuery, h]
  · cases r <;> simp [loadInitialInsights] <;> split <;> simp
  · intro h
    cases r <;> simp [ReqResult.isFail] at h <;> rfl

/-- C3 witness: a concrete network failure of the export request is
surfaced as the fixed string. -/
theorem C3_error_surfacing_witness :
    ReqResult.isFail .reqErr = true ∧
    (exportResults "csv" .reqErr).2.1 = some "Export failed" :=
  ⟨by decide,
   (C3_error_surfacing ⟨none, none, false⟩ ⟨none, true, none⟩ ⟨none, []⟩
      ⟨"", [], false⟩ "m" "s" "csv" (fun _ => .ok Json.null) .reqErr).2.1
     (by decide)⟩

/-- C4 counterexample: one click of Process Mapping (with both files
selected and a reachable backend) issues three network requests, not
exactly one. -/
theorem C4_counterexample_three_requests :
    (processMapping ⟨none, none, false⟩ (some "mapping.csv")
        (some "sales.csv") (fun _ => .ok Json.null)).1.length = 3 ∧
    (processMapping ⟨none, none, false⟩ (some "mapping.csv")
        (some "sales.csv") (fun _ => .ok Json.null)).1.length ≠ 1 :=
  ⟨by decide, by decide⟩

/-- C4 (amended): no user action coordinates concurrent requests or
cancels one — Process Mapping issues up to three requests strictly in
sequence (mapping upload, then sales upload, then process, stopping at the
first failure); an export click, the dashboard load and the analytics-page
load each issue exactly one request; sending a query issues none. -/
theorem C4_requests_per_action (init : UploadState) (dinit : DashState)
    (ainit : AnalyticsInit) (st : AnalyticsState) (mf sf fmt : String)
    (oracle : Nat → ReqResult) (r : ReqResult) (fails : Bool) :
    (processMapping init (some mf) (some sf) oracle).1 ∈
      [[reqMappingUpload], [reqMappingUpload, reqSalesUpload],
       [reqMappingUpload, reqSalesUpload, reqProcess]] ∧
    (exportResults fmt r).1 = [reqExport] ∧
    (dashboardOnLoad r).1 = [reqAnalytics] ∧
    (fetchAnalytics dinit r).1 = [reqAnalytics] ∧
    (loadInitialInsights ainit r).1 = [reqDataPreview] ∧
    (sendQuery st fails).1 = [] := by
  refine ⟨processMapping_trace_mem init mf sf oracle, rfl, rfl, rfl, rfl, ?_⟩
  simp only [sendQuery]
  split
  · rfl
  · split <;> rfl

/-- C5 counterexample: a process response that is well-formed JSON but
lacks a stats field is rejected by the frontend on account of its
structure — the upload flow surfaces 'Invalid response format from server'
instead of accepting the response. -/
theorem C5_counterexample_stats_check :
    processMapping ⟨none, none, false⟩ (some "mapping.csv") (some "sales.csv")
        (fun _ => .ok (Json.obj [("message", Json.str "ok")])) =
      ([reqMappingUpload, reqSalesUpload, reqProcess],
       { error := some "Invalid response format from server", results := none,
         processing := false }) := rfl

/-- C5 (amended): the frontend consumes backend JSON as opaque display data
with one exception — processMapping requires the process response to carry
a truthy stats field and rejects it with 'Invalid response format from
server' otherwise; the dashboard stores any analytics body as-is without
validation, and the data-preview handler stores any truthy body and never
surfaces a structural complaint. -/
theorem C5_no_validation_except_stats (init : UploadState)
    (dinit : DashState) (ainit : AnalyticsInit) (mf sf : String)
    (oracle : Nat → ReqResult) (r : ReqResult) (body b0 b1 b2 : Json)
    (h0 : oracle 0 = .ok b0) (h1 : oracle 1 = .ok b1) (h2 : oracle 2 = .ok b2) :
    ((fetchAnalytics dinit (.ok body)).2.analytics = some body ∧
     (fetchAnalytics dinit (.ok body)).2.error = dinit.error) ∧
    (jsTruthy body = true →
       (loadInitialInsights ainit (.ok body)).2.1.dataPreview = some body) ∧
    (loadInitialInsights ainit r).2.2 = none ∧
    (jsTruthy (Json.getField b2 "stats") = false →
       (processMapping init (some mf) (some sf) oracle).2.error =
         some "Invalid response format from server" ∧
       (processMapping init (some mf) (some sf) oracle).2.results =
         init.results) ∧
    (jsTruthy (Json.getField b2 "stats") = true →
       (processMapping init (some mf) (some sf) oracle).2.results =
         some (Json.getField b2 "stats")) := by
  refine ⟨⟨rfl, rfl⟩, ?_, ?_, ?_, ?_⟩
  · intro h
    simp [loadInitialInsights, h]
  · cases r <;> simp [loadInitialInsights] <;> split <;> simp
  · intro h
    constructor <;>
      simp [processMapping, uploadFile, h0, h1, h2, h, catchMessage]
  · intro h
    simp [processMapping, uploadFile, h0, h1, h2, h]

/-- C5 witness: a concrete structureless process response is rejected and
a concrete analytics body is stored unvalidated. -/
theorem C5_no_validation_except_stats_witness :
    jsTruthy (Json.getField (Json.obj [("message", Json.str "ok")]) "stats") =
      false ∧
    (processMapping ⟨none, none, false⟩ (some "mapping.csv")
        (some "sales.csv")
        (fun _ => .ok (Json.obj [("message", Json.str "ok")]))).2.error =
      some "Invalid response format from server" :=
  ⟨by decide,
   ((C5_no_validation_except_stats ⟨none, none, false⟩ ⟨none, true, none⟩
       ⟨none, []⟩ "mapping.csv" "sales.csv"
       (fun _ => .ok (Json.obj [("message", Json.str "ok")]))
       (.ok Json.null) Json.null
       (Json.obj [("message", Json.str "ok")])
       (Json.obj [("message", Json.str "ok")])
       (Json.obj [("message", Json.str "ok")])
       rfl rfl rfl).2.2.2.1 (by decide)).1⟩

/-- C6: every request any page handler issues targets one of the six REST
endpoints — /api/analytics, /api/data/preview, /api/upload/mapping,
/api/upload/sales, /api/process, /api/export — once its URL is stripped of
the query string; sendQuery issues no request at all. -/
theorem C6_only_six_endpoints :
    (∀ (init : UploadState) (m s : Option String) (oracle : Nat → ReqResult)
       (q : Request), q ∈ (processMapping init m s oracle).1 →
         requestPath q ∈ apiEndpoints) ∧
    (∀ (fmt : String) (r : ReqResult) (q : Request),
       q ∈ (exportResults fmt r).1 → requestPath q ∈ apiEndpoints) ∧
    (∀ (dinit : DashState) (r : ReqResult) (q : Request),
       q ∈ (fetchAnalytics dinit r).1 → requestPath q ∈ apiEndpoints) ∧
    (∀ (r : ReqResult) (q : Request),
       q ∈ (dashboardOnLoad r).1 → requestPath q ∈ apiEndpoints) ∧
    (∀ (ainit : AnalyticsInit) (r : ReqResult) (q : Request),
       q ∈ (loadInitialInsights ainit r).1 → requestPath q ∈ apiEndpoints) ∧
    (∀ (st : AnalyticsState) (fails : Bool), (sendQuery st fails).1 = []) := by
  refine ⟨?_, ?_, ?_, ?_, ?_, ?_⟩
  · intro init m s oracle q hq
    rcases m with _ | mf
    · simp [processMapping] at hq
    rcases s with _ | sf
    · simp [processMapping] at hq
    have h := processMapping_trace_mem init mf sf oracle
    simp only [List.mem_cons, List.not_mem_nil, or_false] at h
    rcases h with h | h | h <;> rw [h] at hq <;>
      simp only [List.mem_cons, List.not_mem_nil, or_false] at hq <;>
      first
        | (rcases hq with rfl | rfl | rfl <;> decide)
        | (rcases hq with rfl | rfl <;> decide)
        | (rcases hq with rfl <;> decide)
  · intro fmt r q hq
    simp only [exportResults, List.mem_singleton] at hq
    rcases hq with rfl
    decide
  · intro dinit r q hq
    simp only [fetchAnalytics, List.mem_singleton] at hq
    rcases hq with rfl
    decide
  · intro r q hq
    simp only [dashboardOnLoad, fetchAnalytics, List.mem_singleton] at hq
    rcases hq with rfl
    decide
  · intro ainit r q hq
    simp only [loadInitialInsights, List.mem_singleton] at hq
    rcases hq with rfl
    decide
  · intro st fails
    simp only [sendQuery]
    split
    · rfl
    · split <;> rfl

/-- C6 witness: the process request of a concrete upload run targets one of
the six endpoints. -/
theorem C6_only_six_endpoints_witness :
    reqProcess ∈ (processMapping ⟨none, none, false⟩ (some "mapping.csv")
        (some "sales.csv") (fun _ => .ok Json.null)).1 ∧
    requestPath reqProcess ∈ apiEndpoints :=
  ⟨by decide,
   C6_only_six_endpoints.1 ⟨none, none, false⟩ (some "mapping.csv")
     (some "sales.csv") (fun _ => .ok Json.null) reqProcess (by decide)⟩

/-- C7: the dashboard load issues exactly one GET of /api/analytics and
stores the body unchanged; the bar chart input is exactly the (product,
count) entry list of metrics.top_products, and the pie chart consists of a
Mapped slice valued total_orders minus unmapped_count and an Unmapped slice
valued unmapped_count. -/
theorem C7_dashboard_flow (dinit : DashState) (r : ReqResult) (body : Json)
    (fs : List (String × Json)) (t u : Int)
    (htp : Json.getField (Json.getField body "analytics") "top_products" =
      .obj fs)
    (hto : Json.getField (Json.getField body "analytics") "total_orders" =
      .num t)
    (huc : Json.getField (Json.getField body "analytics") "unmapped_count" =
      .num u) :
    (dashboardOnLoad r).1 = [reqAnalytics] ∧
    (fetchAnalytics dinit (.ok body)).2.analytics = some body ∧
    topProductsData (Json.getField body "analytics") = fs ∧
    mappingPieData (Json.getField body "analytics") =
      [("Mapped", t - u), ("Unmapped", u)] := by
  refine ⟨rfl, rfl, ?_, ?_⟩
  · simp [topProductsData, jsEntries, htp]
  · simp [mappingPieData, jsInt, hto, huc]

/-- C7 witness: a concrete analytics body. -/
theorem C7_dashboard_flow_witness :
    Json.getField (Json.getField sampleAnalyticsBody "analytics")
        "top_products" =
      Json.obj [("MSKU001", Json.num 150), ("MSKU002", Json.num 120)] ∧
    topProductsData (Json.getField sampleAnalyticsBody "analytics") =
      [("MSKU001", Json.num 150), ("MSKU002", Json.num 120)] ∧
    mappingPieData (Json.getField sampleAnalyticsBody "analytics") =
      [("Mapped", 45), ("Unmapped", 3)] := by
  have h := C7_dashboard_flow ⟨none, true, none⟩ (.ok sampleAnalyticsBody)
    sampleAnalyticsBody
    [("MSKU001", Json.num 150), ("MSKU002", Json.num 120)] 48 3
    rfl rfl rfl
  exact ⟨rfl, h.2.2.1, h.2.2.2⟩

end WMS
